import Mathlib

/-!
Shallow embedding of the numerical kernel of the Exoplanet_Workshop repository:
the transit light-curve model (`_transit_model` in
`Activity_1_Kepler22/kepler22_lab.py`), the phase folding (`fold_at_period` in
`Activity_2_Trappist_System/trappist_detective.py` and
`Activity3_Entire_Trappist_System/trappist_habitable.py`), the inline fit
scorer of `update_fit` (`kepler22_lab.py`), and
`_calculate_habitability_score` (`trappist_habitable.py`).

Floating-point numbers are idealised as rationals (and reals where `np.sqrt`
or `np.exp` occur).  The NaN produced by `x % 0.0` and by `np.mean` of an
empty array is modelled explicitly (`Option` or a dedicated constructor),
because several claims are about exactly that behaviour; every IEEE
comparison involving NaN is false, which the embedding encodes by guarding
each comparison with `period ≠ 0`.
-/

set_option autoImplicit false

namespace Workshop

/-- Python / numpy floating-point modulo for a nonzero divisor:
`t % p = t - p * floor (t / p)` (the result has the sign of the divisor).
For `p = 0` Python produces NaN; callers that need that case model it
separately, and this function is only ever used with its `p = 0` junk value
behind a NaN guard. -/
def pymod (t p : ℚ) : ℚ := t - p * ⌊t / p⌋

/-- One sample of `fold_at_period`: `phase = (time % period) / period`
(`trappist_detective.py` line 94, `trappist_habitable.py` line 308).
`none` models the NaN that numpy produces when `period = 0`. -/
def foldPhase (t p : ℚ) : Option ℚ :=
  if p = 0 then none else some (pymod t p / p)

/-- `phase = (self.time % period) / period`, elementwise over the time
array.  The source performs no validation of `period` whatsoever. -/
def fold_at_period (times : List ℚ) (p : ℚ) : List (Option ℚ) :=
  times.map (fun t => foldPhase t p)

/-- `distance_from_center = np.abs(phase - center)` with `center = 0.5`,
where `phase = (time % orbital_period) / orbital_period`.  When
`orbital_period = 0` the true value is NaN; the junk value returned here is
only ever read behind a `orbital_period ≠ 0` guard. -/
def transitDist (t p : ℚ) : ℚ := |pymod t p / p - 1/2|

/-- Per-sample value of `_transit_model` (`kepler22_lab.py` lines 68-95).
The code initialises `flux = np.ones_like(time)`, writes `1 - depth` where
`distance < 0.6 * duration`, and writes the quadratic taper where
`0.6 * duration ≤ distance < duration`; the two masks are disjoint, so the
final per-sample value is this conditional chain.  With
`orbital_period = 0` the phase is NaN and every NaN comparison is false, so
the sample keeps its baseline value `1`; the `orbital_period ≠ 0` conjuncts
encode that. -/
def transitFluxAt (planet_size orbital_period impact_parameter t : ℚ) : ℚ :=
  let transit_depth := planet_size ^ 2
  let transit_duration := 1/10 * (impact_parameter / 10)
  let distance := transitDist t orbital_period
  if orbital_period ≠ 0 ∧ distance < transit_duration * (6/10) then
    1 - transit_depth
  else if orbital_period ≠ 0 ∧ distance < transit_duration ∧
      ¬ distance < transit_duration * (6/10) then
    1 - transit_depth *
      (1 - ((distance - transit_duration * (6/10)) / (transit_duration * (4/10))) ^ 2)
  else 1

/-- `_transit_model`: the synthetic light curve, elementwise over the time
array.  The source performs no validation of `orbital_period`. -/
def transit_model (times : List ℚ) (planet_size orbital_period impact_parameter : ℚ) :
    List ℚ :=
  times.map (fun t => transitFluxAt planet_size orbital_period impact_parameter t)

/-- `_calculate_habitability_score` (`trappist_habitable.py` lines 631-640):
piecewise score with a final `max(0.3, min(1.0, score))` clamp on every
branch. -/
def calculate_habitability_score (temp : ℚ) : ℚ :=
  let score :=
    if -20 ≤ temp ∧ temp ≤ 50 then 1 - |temp - 15| / 65
    else if -50 ≤ temp ∧ temp < -20 then 6/10 - (|temp| - 20) / 150
    else 3/10
  max (3/10) (min 1 score)

/-- Elementwise subtraction of two 1-D numpy arrays, with numpy's
broadcasting rule: equal lengths subtract elementwise, a length-1 array
broadcasts against the other, and any other length mismatch raises a
`ValueError` (modelled as `none`). -/
def np_sub (a b : List ℚ) : Option (List ℚ) :=
  if a.length = b.length then some (List.zipWith (fun x y => x - y) a b)
  else if a.length = 1 then some (b.map (fun y => a.headI - y))
  else if b.length = 1 then some (a.map (fun x => x - b.headI))
  else none

/-- `np.mean(residuals**2)`: `none` models the NaN that numpy returns for
the mean of an empty array. -/
def np_mean_sq (l : List ℚ) : Option ℚ :=
  if l.isEmpty then none else some ((l.map (fun r => r ^ 2)).sum / l.length)

/-- Outcome of the inline scorer in `update_fit` (`kepler22_lab.py` lines
203-206): either numpy raises a broadcast `ValueError` on
`flux - model_flux`, or the empty mean propagates NaN into both numbers, or
a finite `(rms_error, score)` pair is produced. -/
inductive FitOutcome where
  | shapeError : FitOutcome
  | nanResult : FitOutcome
  | result : ℝ → ℝ → FitOutcome

/-- `score = np.clip(100 * np.exp(-rms_error * 1000), 0, 100)` as a function
of the rms error. -/
noncomputable def score_of_rms (e : ℝ) : ℝ :=
  max 0 (min 100 (100 * Real.exp (-e * 1000)))

/-- The scorer of `update_fit`:
`residuals = flux - model_flux`, `rms_error = np.sqrt(np.mean(residuals**2))`,
`score = np.clip(100 * np.exp(-rms_error * 1000), 0, 100)`. -/
noncomputable def update_fit (observed modeled : List ℚ) : FitOutcome :=
  match np_sub observed modeled with
  | none => .shapeError
  | some res =>
    match np_mean_sq res with
    | none => .nanResult
    | some ms => .result (Real.sqrt (ms : ℝ)) (score_of_rms (Real.sqrt (ms : ℝ)))

/-- Caller-owned data of a mission object: the loaded `time` and `flux`
arrays.  `_transit_model` reads `time` and allocates a fresh output array;
`fold_at_period` reads `time`; neither ever writes to these arrays. -/
structure LabData where
  time : List ℚ
  flux : List ℚ

/-- Stateful rendering of `_transit_model`, statement by statement:
`flux = np.ones_like(time)` allocates a fresh array; the two masked
assignments `flux[mid_transit] = 1 - transit_depth` and
`flux[edges] = ...` are vectorised writes into that fresh array only
(a masked assignment with an empty mask, skipped by the `np.any` guards in
the source, is the elementwise no-op).  The caller-owned arrays are
returned unchanged alongside the freshly built model flux. -/
def transit_model_run (d : LabData) (planet_size orbital_period impact_parameter : ℚ) :
    LabData × List ℚ :=
  let transit_depth := planet_size ^ 2
  let transit_duration := 1/10 * (impact_parameter / 10)
  let model0 := d.time.map (fun _ => (1 : ℚ))
  let model1 := (d.time.zip model0).map (fun tf =>
    if orbital_period ≠ 0 ∧ transitDist tf.1 orbital_period < transit_duration * (6/10)
    then 1 - transit_depth else tf.2)
  let model2 := (d.time.zip model1).map (fun tf =>
    if orbital_period ≠ 0 ∧ transitDist tf.1 orbital_period < transit_duration ∧
        ¬ transitDist tf.1 orbital_period < transit_duration * (6/10)
    then 1 - transit_depth *
      (1 - ((transitDist tf.1 orbital_period - transit_duration * (6/10)) /
        (transit_duration * (4/10))) ^ 2)
    else tf.2)
  ({ time := d.time, flux := d.flux }, model2)

/-- Stateful rendering of `fold_at_period`: the phase array is freshly
computed, the caller-owned arrays are returned unchanged. -/
def fold_run (d : LabData) (period : ℚ) : LabData × List (Option ℚ) :=
  ({ time := d.time, flux := d.flux }, fold_at_period d.time period)

/-! ## Theorems -/

/-- C4: for every finite input temperature, `_calculate_habitability_score`
lies in the closed interval `[0.3, 1.0]`; the final
`max(0.3, min(1.0, score))` clamp alone guarantees this on every branch. -/
theorem habitability_score_in_range (temp : ℚ) :
    3/10 ≤ calculate_habitability_score temp ∧ calculate_habitability_score temp ≤ 1 := by
  unfold calculate_habitability_score
  exact ⟨le_max_left _ _, max_le (by norm_num) (min_le_left _ _)⟩

/-- C5: the habitability score is not monotone in distance from the 15 °C
peak across the −20 °C band boundary: the score at −21 °C is
`0.6 - 1/150`, the score at −20 °C is `1 - 35/65`, and the strictly colder
temperature −21 °C receives a strictly higher score. -/
theorem habitability_score_band_boundary_jump :
    ((-21 : ℚ) < -20 ∧ (-20 : ℚ) ≤ 15) ∧
    calculate_habitability_score (-21) = 6/10 - 1/150 ∧
    calculate_habitability_score (-20) = 1 - 35/65 ∧
    calculate_habitability_score (-20) < calculate_habitability_score (-21) := by
  norm_num [calculate_habitability_score]

/-- C2 counterexample: with `period = 0`, `fold_at_period` silently
produces a NaN phase (modelled as `none`) rather than signalling an
invalid-parameter error — the source has no error path for `period ≤ 0`
at all. -/
theorem fold_at_period_zero_silent_nan :
    fold_at_period [3] 0 = [none] := by
  simp [fold_at_period, foldPhase]

/-- C2 amended: neither function validates the period.  With `period = 0`,
`fold_at_period` silently maps every sample to NaN, and `_transit_model`
(whose NaN comparisons are all false) silently returns the all-ones
baseline; no invalid-parameter error is ever signalled. -/
theorem no_period_validation (times : List ℚ) (planet_size impact_parameter : ℚ) :
    fold_at_period times 0 = times.map (fun _ => none) ∧
    transit_model times planet_size 0 impact_parameter = times.map (fun _ => 1) := by
  constructor
  · simp [fold_at_period, foldPhase]
  · simp [transit_model, transitFluxAt]

/-- Shifting the argument by a whole multiple of the modulus leaves the
Python modulo unchanged. -/
lemma pymod_add_int_mul (t p : ℚ) (k : ℤ) (hp : p ≠ 0) :
    pymod (t + k * p) p = pymod t p := by
  unfold pymod
  have hdiv : (t + k * p) / p = t / p + k := by
    rw [add_div, mul_div_assoc, div_self hp, mul_one]
  rw [hdiv, Int.floor_add_int]
  push_cast
  ring

/-- For a positive modulus the Python modulo lands in `[0, p)`. -/
lemma pymod_range (t p : ℚ) (hp : 0 < p) : 0 ≤ pymod t p ∧ pymod t p < p := by
  unfold pymod
  have hfl := Int.floor_le (t / p)
  have hfu := Int.lt_floor_add_one (t / p)
  constructor
  · have h1 : p * (⌊t / p⌋ : ℚ) ≤ p * (t / p) := by
      exact mul_le_mul_of_nonneg_left hfl (le_of_lt hp)
    rw [mul_div_cancel₀ t (ne_of_gt hp)] at h1
    linarith
  · have h2 : p * (t / p) < p * ((⌊t / p⌋ : ℚ) + 1) := by
      exact mul_lt_mul_of_pos_left hfu hp
    rw [mul_div_cancel₀ t (ne_of_gt hp)] at h2
    linarith

/-- One fold sample is invariant under a whole-period shift. -/
lemma foldPhase_add_int_mul (t p : ℚ) (k : ℤ) (hp : p ≠ 0) :
    foldPhase (t + k * p) p = foldPhase t p := by
  simp [foldPhase, hp, pymod_add_int_mul t p k hp]

/-- Replacing one element of the time array by itself shifted a whole
number of periods leaves the folded array unchanged. -/
lemma fold_at_period_set_shift (p : ℚ) (hp : p ≠ 0) (k : ℤ) :
    ∀ (l : List ℚ) (i : ℕ),
      fold_at_period (l.set i (l.getD i 0 + k * p)) p = fold_at_period l p := by
  intro l
  induction l with
  | nil => intro i; rfl
  | cons a tl ih =>
    intro i
    cases i with
    | zero =>
      simp only [List.getD_cons_zero, List.set_cons_zero, fold_at_period, List.map_cons]
      rw [foldPhase_add_int_mul a p k hp]
    | succ n =>
      simp only [List.getD_cons_succ, List.set_cons_succ, fold_at_period, List.map_cons]
      have := ih n
      simp only [fold_at_period] at this
      rw [this]

/-- C3: for a positive period, folding is invariant under shifting any one
sample by any whole number of periods, and every resulting phase is an
actual number (not NaN) lying in `[0, 1)`. -/
theorem fold_at_period_shift_invariant_and_in_range
    (times : List ℚ) (p : ℚ) (hp : 0 < p) (i : ℕ) (k : ℤ) :
    fold_at_period (times.set i (times.getD i 0 + k * p)) p = fold_at_period times p ∧
    ∀ φ ∈ fold_at_period times p, ∃ x : ℚ, φ = some x ∧ 0 ≤ x ∧ x < 1 := by
  constructor
  · exact fold_at_period_set_shift p (ne_of_gt hp) k times i
  · intro φ hφ
    simp only [fold_at_period, List.mem_map] at hφ
    obtain ⟨t, -, rfl⟩ := hφ
    refine ⟨pymod t p / p, by simp [foldPhase, ne_of_gt hp], ?_, ?_⟩
    · exact div_nonneg (pymod_range t p hp).1 (le_of_lt hp)
    · exact (div_lt_one hp).mpr (pymod_range t p hp).2

/-- C3 witness: the theorem at `times = [3, 7]`, `p = 2`, `i = 0`, `k = 5`. -/
theorem fold_at_period_shift_invariant_witness :
    (0 : ℚ) < 2 ∧
    (fold_at_period (List.set [3, 7] 0 (List.getD [3, 7] 0 0 + (5 : ℤ) * 2)) 2 =
        fold_at_period [3, 7] 2 ∧
      ∀ φ ∈ fold_at_period [3, 7] 2, ∃ x : ℚ, φ = some x ∧ 0 ≤ x ∧ x < 1) :=
  ⟨by norm_num, fold_at_period_shift_invariant_and_in_range [3, 7] 2 (by norm_num) 0 5⟩

/-- C1: for every time sequence, every `planet_size` in `(0,1)`, every
positive period and every positive width factor, each flux value returned
by `_transit_model` lies in `[1 - planet_size^2, 1]`: the flat bottom is
exactly `1 - depth`, the quadratic taper stays between `1 - depth` and
`1`, and all other samples are exactly `1`. -/
theorem transit_model_flux_bounds (times : List ℚ)
    (planet_size orbital_period impact_parameter : ℚ)
    (hr0 : 0 < planet_size) (hr1 : planet_size < 1)
    (hp : 0 < orbital_period) (hw : 0 < impact_parameter) :
    ∀ f ∈ transit_model times planet_size orbital_period impact_parameter,
      1 - planet_size ^ 2 ≤ f ∧ f ≤ 1 := by
  intro f hf
  simp only [transit_model, List.mem_map] at hf
  obtain ⟨t, -, rfl⟩ := hf
  unfold transitFluxAt
  dsimp only
  have hdur : (0 : ℚ) < 1/10 * (impact_parameter / 10) := by positivity
  have hd2 : (0 : ℚ) ≤ planet_size ^ 2 := sq_nonneg _
  split_ifs with h1 h2
  · constructor
    · exact le_refl _
    · nlinarith
  · obtain ⟨-, hlt, hge⟩ := h2
    push_neg at hge
    set D := 1/10 * (impact_parameter / 10) with hD
    set dist := transitDist t orbital_period with hdist
    have hden : (0 : ℚ) < D * (4/10) := by positivity
    have he0 : 0 ≤ (dist - D * (6/10)) / (D * (4/10)) :=
      div_nonneg (by linarith) (le_of_lt hden)
    have he1 : (dist - D * (6/10)) / (D * (4/10)) < 1 := by
      rw [div_lt_one hden]
      linarith
    set e := (dist - D * (6/10)) / (D * (4/10)) with hE
    have hesq : 0 ≤ 1 - e ^ 2 := by nlinarith [mul_nonneg he0 (by linarith : (0:ℚ) ≤ 1 - e)]
    have hlow : 0 ≤ planet_size ^ 2 * e ^ 2 := mul_nonneg hd2 (sq_nonneg e)
    have hup : 0 ≤ planet_size ^ 2 * (1 - e ^ 2) := mul_nonneg hd2 hesq
    constructor
    · nlinarith
    · nlinarith
  · constructor
    · nlinarith
    · exact le_refl _

/-- C1 witness: the theorem at `times = [0, 9/20, 1/2]`,
`planet_size = 1/10`, `orbital_period = 1`, `impact_parameter = 10`; the
three samples hit the baseline, the taper and the flat bottom. -/
theorem transit_model_flux_bounds_witness :
    (0 : ℚ) < 1/10 ∧ (1/10 : ℚ) < 1 ∧ (0 : ℚ) < 1 ∧ (0 : ℚ) < 10 ∧
    ∀ f ∈ transit_model [0, 9/20, 1/2] (1/10) 1 10,
      1 - (1/10 : ℚ) ^ 2 ≤ f ∧ f ≤ 1 :=
  ⟨by norm_num, by norm_num, by norm_num, by norm_num,
    transit_model_flux_bounds [0, 9/20, 1/2] (1/10) 1 10
      (by norm_num) (by norm_num) (by norm_num) (by norm_num)⟩

/-- A `result` outcome always carries the score computed from its own rms
error by the clipped exponential. -/
lemma update_fit_result_score {o m : List ℚ} {e s : ℝ}
    (h : update_fit o m = .result e s) : s = score_of_rms e := by
  unfold update_fit at h
  cases hns : np_sub o m with
  | none =>
    simp only [hns] at h
    exact FitOutcome.noConfusion h
  | some res =>
    simp only [hns] at h
    cases hms : np_mean_sq res with
    | none =>
      simp only [hms] at h
      exact FitOutcome.noConfusion h
    | some ms =>
      simp only [hms, FitOutcome.result.injEq] at h
      rw [← h.2, ← h.1]

/-- The clipped exponential score is antitone in the rms error. -/
lemma score_of_rms_antitone {a b : ℝ} (h : a ≤ b) :
    score_of_rms b ≤ score_of_rms a := by
  unfold score_of_rms
  have hexp : Real.exp (-b * 1000) ≤ Real.exp (-a * 1000) :=
    Real.exp_le_exp.mpr (by nlinarith)
  exact max_le_max (le_refl 0) (min_le_min (le_refl 100) (by linarith))

/-- Subtracting a list from itself gives all-zero residuals. -/
lemma zipWith_sub_self : ∀ x : List ℚ,
    List.zipWith (fun a b => a - b) x x = List.replicate x.length 0 := by
  intro x
  induction x with
  | nil => rfl
  | cons a tl ih => simp [ih, List.replicate_succ]

/-- Residuals of a uniform offset are constant. -/
lemma zipWith_sub_map_add (d : ℚ) : ∀ x : List ℚ,
    List.zipWith (fun a b => a - b) x (x.map (fun v => v + d)) =
      x.map (fun _ => -d) := by
  intro x
  induction x with
  | nil => rfl
  | cons a tl ih => simp [ih]

/-- Sum of a constant list. -/
lemma sum_map_const (c : ℚ) : ∀ l : List ℚ,
    (l.map (fun _ => c)).sum = l.length * c := by
  intro l
  induction l with
  | nil => simp
  | cons a tl ih => simp [ih]; ring

/-- Scoring a uniform offset of magnitude `|d|` yields a result pair with
rms error exactly `|d|`. -/
lemma update_fit_uniform_offset (x : List ℚ) (d : ℚ) (hx : x ≠ []) :
    update_fit x (x.map (fun v => v + d)) =
      .result |(d : ℝ)| (score_of_rms |(d : ℝ)|) := by
  have hlen : (x.length : ℚ) ≠ 0 :=
    Nat.cast_ne_zero.mpr (fun h => hx (List.length_eq_zero.mp h))
  have hne : ¬ x.isEmpty := by
    cases x with
    | nil => exact absurd rfl hx
    | cons a tl => simp [List.isEmpty]
  have hsub : np_sub x (x.map (fun v => v + d)) = some (x.map (fun _ => -d)) := by
    simp [np_sub, zipWith_sub_map_add]
  have hmean : np_mean_sq (x.map (fun _ => -d)) = some (d ^ 2) := by
    unfold np_mean_sq
    rw [if_neg (by simpa using hne)]
    congr 1
    rw [List.map_map]
    have : (x.map ((fun r => r ^ 2) ∘ fun _ => -d)).sum = x.length * ((-d) ^ 2) :=
      sum_map_const ((-d) ^ 2) x
    rw [this]
    simp only [List.length_map]
    field_simp
  have hsqrt : Real.sqrt ((d ^ 2 : ℚ) : ℝ) = |(d : ℝ)| := by
    push_cast
    exact Real.sqrt_sq_eq_abs _
  unfold update_fit
  simp only [hsub, hmean, hsqrt]

/-- C6: the fit score is monotonically non-increasing in the rms error —
for any two equal-length input pairs whose result outcomes carry rms
errors `e1 ≤ e2` the scores satisfy `s2 ≤ s1`, and in particular a uniform
offset of larger magnitude never scores higher. -/
theorem fit_score_antitone_in_rms :
    (∀ (o1 m1 o2 m2 : List ℚ) (e1 s1 e2 s2 : ℝ),
        o1.length = m1.length → o2.length = m2.length →
        update_fit o1 m1 = .result e1 s1 → update_fit o2 m2 = .result e2 s2 →
        e1 ≤ e2 → s2 ≤ s1) ∧
    (∀ (x : List ℚ) (d1 d2 : ℚ), x ≠ [] → |d1| ≤ |d2| →
        ∀ (e1 s1 e2 s2 : ℝ),
          update_fit x (x.map (fun v => v + d1)) = .result e1 s1 →
          update_fit x (x.map (fun v => v + d2)) = .result e2 s2 →
          s2 ≤ s1) := by
  constructor
  · intro o1 m1 o2 m2 e1 s1 e2 s2 _ _ h1 h2 hee
    rw [update_fit_result_score h1, update_fit_result_score h2]
    exact score_of_rms_antitone hee
  · intro x d1 d2 hx hdd e1 s1 e2 s2 h1 h2
    rw [update_fit_uniform_offset x d1 hx] at h1
    rw [update_fit_uniform_offset x d2 hx] at h2
    simp only [FitOutcome.result.injEq] at h1 h2
    rw [← h1.2, ← h2.2]
    apply score_of_rms_antitone
    have : ((|d1| : ℚ) : ℝ) ≤ ((|d2| : ℚ) : ℝ) := Rat.cast_le.mpr hdd
    push_cast at this
    exact this

/-- C6 witness: the first conjunct applied to the pairs `([1],[1])` and
`([1],[0])`, whose rms errors are `√0 ≤ √1`. -/
theorem fit_score_antitone_witness :
    score_of_rms (Real.sqrt ((1 : ℚ) : ℝ)) ≤ score_of_rms (Real.sqrt ((0 : ℚ) : ℝ)) := by
  have h1 : update_fit [1] [1] =
      .result (Real.sqrt ((0 : ℚ) : ℝ)) (score_of_rms (Real.sqrt ((0 : ℚ) : ℝ))) := by
    unfold update_fit
    norm_num [np_sub, np_mean_sq]
  have h2 : update_fit [1] [0] =
      .result (Real.sqrt ((1 : ℚ) : ℝ)) (score_of_rms (Real.sqrt ((1 : ℚ) : ℝ))) := by
    unfold update_fit
    norm_num [np_sub, np_mean_sq]
  exact fit_score_antitone_in_rms.1 [1] [1] [1] [0] _ _ _ _ rfl rfl h1 h2
    (Real.sqrt_le_sqrt (by norm_num))

/-- C7: scoring a non-empty sequence against itself is a perfect self-fit:
the residuals are all zero, the rms error is `0` and the score is exactly
`100`. -/
theorem update_fit_self_perfect (x : List ℚ) (hx : x ≠ []) :
    np_sub x x = some (List.replicate x.length 0) ∧
    update_fit x x = .result 0 100 := by
  have hsub : np_sub x x = some (List.replicate x.length 0) := by
    simp [np_sub, zipWith_sub_self]
  refine ⟨hsub, ?_⟩
  have hne : ¬ (List.replicate x.length (0 : ℚ)).isEmpty := by
    cases x with
    | nil => exact absurd rfl hx
    | cons a tl => simp [List.isEmpty, List.replicate]
  have hmean : np_mean_sq (List.replicate x.length 0) = some 0 := by
    unfold np_mean_sq
    rw [if_neg (by simpa using hne)]
    congr 1
    rw [List.map_replicate]
    norm_num
  have hs0 : Real.sqrt ((0 : ℚ) : ℝ) = 0 := by
    rw [Rat.cast_zero, Real.sqrt_zero]
  have h100 : score_of_rms 0 = 100 := by
    unfold score_of_rms
    norm_num [Real.exp_zero]
  unfold update_fit
  simp only [hsub, hmean, hs0, h100]

/-- C7 witness: the theorem at `x = [1, 2]`. -/
theorem update_fit_self_perfect_witness :
    ([(1 : ℚ), 2] ≠ []) ∧
    (np_sub [(1 : ℚ), 2] [1, 2] = some (List.replicate (List.length [(1 : ℚ), 2]) 0) ∧
      update_fit [(1 : ℚ), 2] [1, 2] = .result 0 100) :=
  ⟨by simp, update_fit_self_perfect [1, 2] (by simp)⟩

/-- C8 counterexample: the unequal-length pair `([1], [1, 2])` does not
raise the broadcast error — numpy broadcasts the length-1 array and the
scorer silently returns a result pair, contradicting the claim that every
unequal-length pair signals ShapeMismatch. -/
theorem update_fit_broadcast_returns_result :
    ([(1 : ℚ)].length ≠ [(1 : ℚ), 2].length) ∧
    update_fit [(1 : ℚ)] [1, 2] =
      .result (Real.sqrt ((1/2 : ℚ) : ℝ)) (score_of_rms (Real.sqrt ((1/2 : ℚ) : ℝ))) := by
  constructor
  · decide
  · unfold update_fit
    norm_num [np_sub, np_mean_sq]

/-- C8 amended: unequal-length pairs raise the broadcast error exactly when
neither input has length 1; a length-1 input broadcasts silently and
produces a result instead. -/
theorem update_fit_shape_error (o m : List ℚ)
    (h1 : o.length ≠ m.length) (h2 : o.length ≠ 1) (h3 : m.length ≠ 1) :
    update_fit o m = .shapeError := by
  have hsub : np_sub o m = none := by
    simp [np_sub, h1, h2, h3]
  unfold update_fit
  simp only [hsub]

/-- C8 witness: the amended theorem at `o = [1, 2, 3]`, `m = [1, 2]`. -/
theorem update_fit_shape_error_witness :
    ([(1 : ℚ), 2, 3].length ≠ [(1 : ℚ), 2].length ∧
      [(1 : ℚ), 2, 3].length ≠ 1 ∧ [(1 : ℚ), 2].length ≠ 1) ∧
    update_fit [(1 : ℚ), 2, 3] [1, 2] = .shapeError :=
  ⟨⟨by decide, by decide, by decide⟩,
    update_fit_shape_error [1, 2, 3] [1, 2] (by decide) (by decide) (by decide)⟩

/-- C9 counterexample: on zero-length inputs the scorer surfaces no
distinct EmptyInput condition — `np.mean` of the empty residual array is
NaN and the scorer silently returns the NaN outcome. -/
theorem update_fit_empty_silent_nan :
    update_fit ([] : List ℚ) [] = .nanResult := by
  unfold update_fit
  norm_num [np_sub, np_mean_sq]

/-- C9 amended: for zero-length observed and modeled sequences the scorer
raises nothing and silently computes NaN rms error and NaN score (the mean
of an empty array), with no EmptyInput condition distinct from
ShapeMismatch. -/
theorem update_fit_empty_inputs_nan (o m : List ℚ) (ho : o = []) (hm : m = []) :
    update_fit o m = .nanResult := by
  subst ho
  subst hm
  unfold update_fit
  norm_num [np_sub, np_mean_sq]

/-- C9 witness: the amended theorem at the empty pair. -/
theorem update_fit_empty_inputs_nan_witness :
    (([] : List ℚ) = [] ∧ ([] : List ℚ) = []) ∧
    update_fit ([] : List ℚ) [] = .nanResult :=
  ⟨⟨rfl, rfl⟩, update_fit_empty_inputs_nan [] [] rfl rfl⟩

/-- A vectorised masked write into a freshly mapped array is an
elementwise conditional update keyed by the source array. -/
lemma zip_map_masked_write (g : ℚ → ℚ) (q : ℚ → Prop) [DecidablePred q] (w : ℚ → ℚ) :
    ∀ l : List ℚ,
      (l.zip (l.map g)).map (fun tf => if q tf.1 then w tf.1 else tf.2) =
        l.map (fun t => if q t then w t else g t) := by
  intro l
  induction l with
  | nil => rfl
  | cons a tl ih => simp only [List.map_cons, List.zip_cons_cons, ih]

/-- C10: neither `_transit_model` nor `fold_at_period` mutates the
caller-owned `time` or `flux` arrays: the stateful renderings return them
unchanged, and the model values are written only into the freshly
allocated all-ones array, yielding exactly the functional
`transit_model`. -/
theorem core_preserves_caller_data (d : LabData)
    (planet_size orbital_period impact_parameter period : ℚ) :
    (transit_model_run d planet_size orbital_period impact_parameter).1 = d ∧
    (transit_model_run d planet_size orbital_period impact_parameter).2 =
      transit_model d.time planet_size orbital_period impact_parameter ∧
    (fold_run d period).1 = d := by
  refine ⟨rfl, ?_, rfl⟩
  unfold transit_model_run transit_model
  dsimp only
  rw [zip_map_masked_write (fun _ => (1 : ℚ))
    (fun t => orbital_period ≠ 0 ∧
      transitDist t orbital_period < 1/10 * (impact_parameter / 10) * (6/10))
    (fun _ => 1 - planet_size ^ 2) d.time]
  rw [zip_map_masked_write
    (fun t =>
      if orbital_period ≠ 0 ∧
          transitDist t orbital_period < 1/10 * (impact_parameter / 10) * (6/10)
      then 1 - planet_size ^ 2 else 1)
    (fun t => orbital_period ≠ 0 ∧
      transitDist t orbital_period < 1/10 * (impact_parameter / 10) ∧
      ¬ transitDist t orbital_period < 1/10 * (impact_parameter / 10) * (6/10))
    (fun t => 1 - planet_size ^ 2 *
      (1 - ((transitDist t orbital_period - 1/10 * (impact_parameter / 10) * (6/10)) /
        (1/10 * (impact_parameter / 10) * (4/10))) ^ 2)) d.time]
  apply List.map_congr_left
  intro t _
  unfold transitFluxAt
  dsimp only
  by_cases h1 : orbital_period ≠ 0 ∧
      transitDist t orbital_period < 1/10 * (impact_parameter / 10) * (6/10)
  · have h2 : ¬ (orbital_period ≠ 0 ∧
        transitDist t orbital_period < 1/10 * (impact_parameter / 10) ∧
        ¬ transitDist t orbital_period < 1/10 * (impact_parameter / 10) * (6/10)) := by
      intro h2
      exact h2.2.2 h1.2
    simp only [if_pos h1, if_neg h2]
  · by_cases h2 : orbital_period ≠ 0 ∧
        transitDist t orbital_period < 1/10 * (impact_parameter / 10) ∧
        ¬ transitDist t orbital_period < 1/10 * (impact_parameter / 10) * (6/10)
    · simp only [if_neg h1, if_pos h2]
    · simp only [if_neg h1, if_neg h2]

end Workshop
